import Mathlib

/-!
Shallow embedding of the anonymous-chat Telegram bot (src/bot.py and
src/database.py) and proofs of the frozen claims about it.

Modelling conventions:
- SQLite tables become Lean lists kept in insertion (ROWID) order; the
  `queue`, `blocks`, `limits`, `users`, `lastMessages` and `rate` tables or
  dicts become association lists keyed by user id (or by the `(uid, action)`
  rate key).
- Python `int` times (`time.time()`) become `Int`; user ids become `Nat`.
- Python truthiness tests on optional ids (`if exclude_user_id:`,
  `if partner:`, `if candidate:`) are embedded exactly: `none` and `some 0`
  are falsy.
- Outbound transport effects (message sends, `copy_message` forwards) and
  explicit database writes of the limits row are recorded in an effect list;
  message texts are abstracted to tags since the claims only distinguish
  which message was sent, not its wording.
- The admin `/block` and `/unblock` argument is modelled post-parsing as an
  `Option Nat` (`none` covers both the missing-argument and the invalid-id
  reply paths, which send a usage error and change no state).
-/

namespace AnChat

/-- Message texts of bot.py, abstracted to tags. -/
inductive MsgTag
| rateLimitedNext
| blockedStart
| blockedNext
| limitReached
| limitRemoved
| partnerLeftChat
| youLeftSearching
| partnerFound
| queuedWaiting
| stopPartnerEnded
| stopYouEnded
| stopNotInChat
| reportNotInChat
| reportSentThanks
| reportHeader
| reportNoMessages
| reportFooter
| welcome
| commandsList
| textNoPartner
| relayText
| statsText
| adminOnly
| blockUsage
| blockedByAdminPartner
| youAreBlocked
| blockDone
| unblockUsage
| youAreUnblocked
| unblockDone
deriving DecidableEq, Repr

/-- Observable effects of one command: transport sends, moderator forwards,
and the explicit limits-row write performed by `database.update_limit`. -/
inductive Eff
| send (toId : Nat) (tag : MsgTag)
| copyMsg (toId fromChatId msgId : Nat)
| dbUpdateLimit (uid used : Nat) (resetTime : Int) (premium : Nat)
deriving DecidableEq, Repr

/-- Telegram user display metadata stored by `add_user`. -/
structure Profile where
  username : Option String
  firstName : Option String
  lastName : Option String
deriving DecidableEq, Repr

/-- The whole mutable state of the bot process: the six SQLite tables of
database.py plus the two process-lifetime dicts of bot.py
(`last_messages` and `last_action_time`). -/
structure State where
  users : List (Nat × Profile)
  queue : List Nat
  chats : List (Nat × Nat)
  reports : List (Nat × Nat × String × Int)
  blocks : List Nat
  limits : List (Nat × Nat × Int × Nat)
  lastMessages : List (Nat × List (Nat × Nat))
  rate : List ((Nat × String) × Int)
deriving DecidableEq, Repr

/-- The empty state produced by `init_db` on a fresh database. -/
def initState : State :=
  { users := [], queue := [], chats := [], reports := [], blocks := [],
    limits := [], lastMessages := [], rate := [] }

/-- database.add_user: INSERT OR REPLACE into users. -/
def add_user (users : List (Nat × Profile)) (uid : Nat) (p : Profile) :
    List (Nat × Profile) :=
  if users.any (fun e => e.1 == uid) then
    users.map (fun e => if e.1 == uid then (uid, p) else e)
  else users ++ [(uid, p)]

/-- database.add_to_queue: INSERT OR IGNORE into queue. -/
def add_to_queue (q : List Nat) (uid : Nat) : List Nat :=
  if uid ∈ q then q else q ++ [uid]

/-- database.remove_from_queue: DELETE FROM queue WHERE user_id = uid. -/
def remove_from_queue (q : List Nat) (uid : Nat) : List Nat :=
  q.filter (fun x => x != uid)

/-- database.get_first_in_queue: the `if exclude_user_id:` truthiness test
means `none` and `some 0` both select the unfiltered query. -/
def get_first_in_queue (q : List Nat) (exclude : Option Nat) : Option Nat :=
  match exclude with
  | some e => if e ≠ 0 then q.find? (fun x => x != e) else q.head?
  | none => q.head?

/-- database.add_chat: INSERT INTO chats. -/
def add_chat (chats : List (Nat × Nat)) (u1 u2 : Nat) : List (Nat × Nat) :=
  chats ++ [(u1, u2)]

/-- database.get_partner: first row with user1 = uid, else first row with
user2 = uid, else none. -/
def get_partner (chats : List (Nat × Nat)) (uid : Nat) : Option Nat :=
  match chats.find? (fun p => p.1 == uid) with
  | some p => some p.2
  | none =>
    match chats.find? (fun p => p.2 == uid) with
    | some p => some p.1
    | none => none

/-- database.remove_chat_by_users: DELETE rows matching the pair in either
orientation. -/
def remove_chat_by_users (chats : List (Nat × Nat)) (u1 u2 : Nat) :
    List (Nat × Nat) :=
  chats.filter (fun p => !((p.1 == u1 && p.2 == u2) || (p.1 == u2 && p.2 == u1)))

/-- database.add_report: append an immutable report row. -/
def add_report (reports : List (Nat × Nat × String × Int))
    (reporter reported : Nat) (reason : String) (now : Int) :
    List (Nat × Nat × String × Int) :=
  reports ++ [(reporter, reported, reason, now)]

/-- database.block_user: INSERT OR IGNORE into blocks. -/
def block_user (blocks : List Nat) (uid : Nat) : List Nat :=
  if uid ∈ blocks then blocks else blocks ++ [uid]

/-- database.unblock_user: DELETE FROM blocks. -/
def unblock_user (blocks : List Nat) (uid : Nat) : List Nat :=
  blocks.filter (fun x => x != uid)

/-- database.is_blocked: membership in blocks. -/
def is_blocked (blocks : List Nat) (uid : Nat) : Bool :=
  blocks.contains uid

/-- database.get_limit_info: the (used_count, reset_time, premium) row, with
the documented default (0, 0, 0) when absent. -/
def get_limit_info (limits : List (Nat × Nat × Int × Nat)) (uid : Nat) :
    Nat × Int × Nat :=
  match limits.find? (fun e => e.1 == uid) with
  | some e => e.2
  | none => (0, 0, 0)

/-- database.update_limit: upsert of the limits row for uid. -/
def update_limit (limits : List (Nat × Nat × Int × Nat)) (uid used : Nat)
    (reset : Int) (premium : Nat) : List (Nat × Nat × Int × Nat) :=
  if limits.any (fun e => e.1 == uid) then
    limits.map (fun e => if e.1 == uid then (uid, used, reset, premium) else e)
  else limits ++ [(uid, used, reset, premium)]

/-- bot.last_messages lookup: `last_messages.get(uid, [])`. -/
def last_messages_get (lm : List (Nat × List (Nat × Nat))) (uid : Nat) :
    List (Nat × Nat) :=
  (((lm.find? (fun e => e.1 == uid)).map (fun e => e.2))).getD []

/-- bot.push_last_message's trim step: `lst[-limit:]` when over the limit. -/
def keep_last (limit : Nat) (l : List (Nat × Nat)) : List (Nat × Nat) :=
  if l.length > limit then l.drop (l.length - limit) else l

/-- bot.push_last_message: append the (chat id, message id) reference and keep
only the last `limit` entries. -/
def push_last_message (lm : List (Nat × List (Nat × Nat)))
    (uid chatId msgId limit : Nat) : List (Nat × List (Nat × Nat)) :=
  let lst := keep_last limit (last_messages_get lm uid ++ [(chatId, msgId)])
  if lm.any (fun e => e.1 == uid) then
    lm.map (fun e => if e.1 == uid then (uid, lst) else e)
  else lm ++ [(uid, lst)]

/-- bot.is_rate_limited: returns the limited flag and the (possibly updated)
stamp map; the stamp is refreshed only on the not-limited path. -/
def is_rate_limited (rate : List ((Nat × String) × Int)) (uid : Nat)
    (action : String) (cooldown now : Int) :
    Bool × List ((Nat × String) × Int) :=
  let key := (uid, action)
  let last := ((rate.find? (fun e => e.1 == key)).map (fun e => e.2)).getD 0
  if now - last < cooldown then (true, rate)
  else (false,
    if rate.any (fun e => e.1 == key) then
      rate.map (fun e => if e.1 == key then (key, now) else e)
    else rate ++ [(key, now)])

/-- bot.LIMIT. -/
def LIMIT : Nat := 5

/-- bot.RESET_SECONDS. -/
def RESET_SECONDS : Int := 3600

/-- bot.cmd_next lines 133-137: tear down the caller's existing pairing when
the looked-up partner id is truthy, notifying both sides. -/
def next_teardown (s : State) (uid : Nat) : State × List Eff :=
  match get_partner s.chats uid with
  | some p =>
    if p ≠ 0 then
      ({ s with chats := remove_chat_by_users s.chats uid p },
       [.send p .partnerLeftChat, .send uid .youLeftSearching])
    else (s, [])
  | none => (s, [])

/-- bot.cmd_next lines 139-154: look up the oldest queued user other than the
caller; when the candidate id is truthy, remove it from the queue and create
the pairing, otherwise enqueue the caller. -/
def next_match (s : State) (uid : Nat) : State × List Eff :=
  match get_first_in_queue s.queue (some uid) with
  | some c =>
    if c ≠ 0 then
      ({ s with queue := remove_from_queue s.queue c,
                chats := add_chat s.chats uid c },
       [.send c .partnerFound, .send uid .partnerFound])
    else
      ({ s with queue := add_to_queue s.queue uid }, [.send uid .queuedWaiting])
  | none =>
    ({ s with queue := add_to_queue s.queue uid }, [.send uid .queuedWaiting])

/-- bot.cmd_start. -/
def cmd_start (s : State) (uid : Nat) (prof : Profile) : State × List Eff :=
  let s1 : State := { s with users := add_user s.users uid prof }
  if is_blocked s1.blocks uid then (s1, [.send uid .blockedStart])
  else (s1, [.send uid .welcome])

/-- bot.cmd_next: rate-limit guard, user upsert, block guard, quota logic with
subscription override, teardown of an existing pairing, then FIFO matching or
enqueueing. `subscribed` is the result of the external `is_subscribed` call. -/
def cmd_next (s : State) (uid : Nat) (prof : Profile) (now : Int)
    (subscribed : Bool) : State × List Eff :=
  let rl := is_rate_limited s.rate uid "next" 5 now
  if rl.1 then ({ s with rate := rl.2 }, [.send uid .rateLimitedNext])
  else
    let s1 : State := { s with rate := rl.2, users := add_user s.users uid prof }
    if is_blocked s1.blocks uid then (s1, [.send uid .blockedNext])
    else
      let info := get_limit_info s1.limits uid
      let used0 := info.1
      let reset0 := info.2.1
      let premium0 := info.2.2
      let used1 := if now > reset0 then 0 else used0
      let reset1 := if now > reset0 then now + RESET_SECONDS else reset0
      if premium0 == 0 && decide (used1 ≥ LIMIT) && !subscribed then
        ({ s1 with limits := update_limit s1.limits uid used1 reset1 premium0 },
         [.send uid .limitReached, .dbUpdateLimit uid used1 reset1 premium0])
      else
        let premium1 := if premium0 == 0 && decide (used1 ≥ LIMIT) then 1 else premium0
        let effA : List Eff :=
          if premium0 == 0 && decide (used1 ≥ LIMIT) then [.send uid .limitRemoved] else []
        let used2 := if premium1 == 0 then used1 + 1 else used1
        let s2 : State := { s1 with limits := update_limit s1.limits uid used2 reset1 premium1 }
        let effB := effA ++ [.dbUpdateLimit uid used2 reset1 premium1]
        let t1 := next_teardown s2 uid
        let t2 := next_match t1.1 uid
        (t2.1, effB ++ t1.2 ++ t2.2)

/-- bot.cmd_stop: tear down the pairing if one exists (Python truthiness on the
partner id), else remove the caller from the queue. -/
def cmd_stop (s : State) (uid : Nat) : State × List Eff :=
  match get_partner s.chats uid with
  | some p =>
    if p ≠ 0 then
      ({ s with chats := remove_chat_by_users s.chats uid p },
       [.send p .stopPartnerEnded, .send uid .stopYouEnded])
    else
      ({ s with queue := remove_from_queue s.queue uid }, [.send uid .stopNotInChat])
  | none =>
    ({ s with queue := remove_from_queue s.queue uid }, [.send uid .stopNotInChat])

/-- bot.cmd_report: deny without a truthy partner; otherwise append the report
row, thank the reporter, and forward the partner's recent-message window to the
admin (or send the no-messages notice when the window is empty). -/
def cmd_report (adminId : Nat) (s : State) (reporter : Nat) (now : Int) :
    State × List Eff :=
  match get_partner s.chats reporter with
  | some p =>
    if p ≠ 0 then
      let s1 : State :=
        { s with reports := add_report s.reports reporter p "No reason provided" now }
      let msgs := last_messages_get s1.lastMessages p
      if msgs.isEmpty then
        (s1, [.send reporter .reportSentThanks, .send adminId .reportNoMessages])
      else
        (s1, [.send reporter .reportSentThanks, .send adminId .reportHeader]
             ++ msgs.map (fun m => Eff.copyMsg adminId m.1 m.2)
             ++ [.send adminId .reportFooter])
    else (s, [.send reporter .reportNotInChat])
  | none => (s, [.send reporter .reportNotInChat])

/-- bot.handle_text: silently drop blocked senders, require a truthy partner,
record the message reference and relay the text. -/
def handle_text (s : State) (uid chatId msgId : Nat) : State × List Eff :=
  if is_blocked s.blocks uid then (s, [])
  else
    match get_partner s.chats uid with
    | some p =>
      if p ≠ 0 then
        ({ s with lastMessages := push_last_message s.lastMessages uid chatId msgId 5 },
         [.send p .relayText])
      else (s, [.send uid .textNoPartner])
    | none => (s, [.send uid .textNoPartner])

/-- bot.cmd_stats: admin-only, read-only. -/
def cmd_stats (adminId : Nat) (s : State) (caller : Nat) : State × List Eff :=
  if caller ≠ adminId then (s, [.send caller .adminOnly])
  else (s, [.send caller .statsText])

/-- bot.cmd_block: admin-only; block the target, tear down its pairing when the
partner id is truthy, and remove it from the queue. -/
def cmd_block (adminId : Nat) (s : State) (caller : Nat) (target : Option Nat) :
    State × List Eff :=
  if caller ≠ adminId then (s, [.send caller .adminOnly])
  else
    match target with
    | none => (s, [.send caller .blockUsage])
    | some t =>
      let s1 : State := { s with blocks := block_user s.blocks t }
      match get_partner s1.chats t with
      | some p =>
        if p ≠ 0 then
          let s2 : State := { s1 with chats := remove_chat_by_users s1.chats t p }
          ({ s2 with queue := remove_from_queue s2.queue t },
           [.send p .blockedByAdminPartner, .send t .youAreBlocked, .send caller .blockDone])
        else
          ({ s1 with queue := remove_from_queue s1.queue t },
           [.send t .youAreBlocked, .send caller .blockDone])
      | none =>
        ({ s1 with queue := remove_from_queue s1.queue t },
         [.send t .youAreBlocked, .send caller .blockDone])

/-- bot.cmd_unblock: admin-only removal from the block set. -/
def cmd_unblock (adminId : Nat) (s : State) (caller : Nat) (target : Option Nat) :
    State × List Eff :=
  if caller ≠ adminId then (s, [.send caller .adminOnly])
  else
    match target with
    | none => (s, [.send caller .unblockUsage])
    | some t =>
      ({ s with blocks := unblock_user s.blocks t },
       [.send t .youAreUnblocked, .send caller .unblockDone])

/-- One inbound command, carrying the external inputs the handler consumes
(wall-clock time, the external subscription-check result, parsed admin
arguments). -/
inductive Cmd
| start (uid : Nat) (prof : Profile)
| next (uid : Nat) (prof : Profile) (now : Int) (subscribed : Bool)
| stop (uid : Nat)
| report (uid : Nat) (now : Int)
| incomingText (uid chatId msgId : Nat)
| adminStats (caller : Nat)
| adminBlock (caller : Nat) (target : Option Nat)
| adminUnblock (caller : Nat) (target : Option Nat)

/-- Dispatch of one command to its handler. -/
def applyCmd (adminId : Nat) (s : State) : Cmd → State × List Eff
| .start uid prof => cmd_start s uid prof
| .next uid prof now sub => cmd_next s uid prof now sub
| .stop uid => cmd_stop s uid
| .report uid now => cmd_report adminId s uid now
| .incomingText uid c m => handle_text s uid c m
| .adminStats caller => cmd_stats adminId s caller
| .adminBlock caller t => cmd_block adminId s caller t
| .adminUnblock caller t => cmd_unblock adminId s caller t

/-- The Telegram account that issued the command. -/
def Cmd.actor : Cmd → Nat
| .start uid _ => uid
| .next uid _ _ _ => uid
| .stop uid => uid
| .report uid _ => uid
| .incomingText uid _ _ => uid
| .adminStats caller => caller
| .adminBlock caller _ => caller
| .adminUnblock caller _ => caller

/-- Telegram user ids are positive, so every command's sender id is nonzero;
this is the transport-level guarantee `message.from_user.id` provides. -/
def Cmd.wf (c : Cmd) : Prop := c.actor ≠ 0

/-- States reachable from a fresh database by well-formed commands. -/
inductive Reach (adminId : Nat) : State → Prop
| init : Reach adminId initState
| step {s : State} (c : Cmd) : Reach adminId s → c.wf →
    Reach adminId (applyCmd adminId s c).1

/-- A chats row mentions user u in either column. -/
def involved (u : Nat) (p : Nat × Nat) : Bool := p.1 == u || p.2 == u

/-- Number of chats rows mentioning u. -/
def chatCount (chats : List (Nat × Nat)) (u : Nat) : Nat := chats.countP (involved u)

/-- Whether some chats row mentions u. -/
def inChat (chats : List (Nat × Nat)) (u : Nat) : Bool := chats.any (involved u)

/-- The structural invariant of reachable states: the queue is duplicate-free,
holds at most one (nonzero) waiting user, chats rows pair distinct nonzero
users, every user sits in at most one chats row, and queued users sit in no
chats row. -/
structure Inv (s : State) : Prop where
  qnodup : s.queue.Nodup
  qlen : s.queue.length ≤ 1
  qnz : ∀ u ∈ s.queue, u ≠ 0
  cnz : ∀ p ∈ s.chats, p.1 ≠ 0 ∧ p.2 ≠ 0 ∧ p.1 ≠ p.2
  cone : ∀ u, chatCount s.chats u ≤ 1
  disj : ∀ u ∈ s.queue, chatCount s.chats u = 0

lemma mem_eq_of_length_le_one {α : Type} {l : List α} (h : l.length ≤ 1) {a b : α}
    (ha : a ∈ l) (hb : b ∈ l) : a = b := by
  match l with
  | [] => cases ha
  | [x] =>
    rw [List.mem_singleton] at ha hb
    rw [ha, hb]
  | x :: y :: l => simp at h

lemma eq_singleton_of_length_le_one {α : Type} {l : List α} (h : l.length ≤ 1) {a : α}
    (ha : a ∈ l) : l = [a] := by
  match l with
  | [] => cases ha
  | [x] => rw [List.mem_singleton] at ha; rw [ha]
  | x :: y :: l => simp at h

lemma involved_iff (u : Nat) (p : Nat × Nat) :
    involved u p = true ↔ u = p.1 ∨ u = p.2 := by
  simp only [involved, Bool.or_eq_true, beq_iff_eq]
  constructor
  · rintro (h | h)
    · exact Or.inl h.symm
    · exact Or.inr h.symm
  · rintro (h | h)
    · exact Or.inl h.symm
    · exact Or.inr h.symm

lemma chatCount_le_chatCount_filter (chats : List (Nat × Nat)) (f : Nat × Nat → Bool)
    (u : Nat) : chatCount (chats.filter f) u ≤ chatCount chats u :=
  (List.filter_sublist _).countP_le _

lemma inChat_false_iff (chats : List (Nat × Nat)) (u : Nat) :
    inChat chats u = false ↔ chatCount chats u = 0 := by
  rw [inChat, chatCount, List.countP_eq_zero, List.any_eq_false]

lemma get_partner_none_iff (chats : List (Nat × Nat)) (u : Nat) :
    get_partner chats u = none ↔ inChat chats u = false := by
  constructor
  · intro h
    rw [inChat, List.any_eq_false]
    intro p hp
    unfold get_partner at h
    cases h1 : List.find? (fun q => q.1 == u) chats with
    | some q => rw [h1] at h; simp at h
    | none =>
      rw [h1] at h
      cases h2 : List.find? (fun q => q.2 == u) chats with
      | some q => rw [h2] at h; simp at h
      | none =>
        have w1 := List.find?_eq_none.mp h1 p hp
        have w2 := List.find?_eq_none.mp h2 p hp
        simp only [involved, Bool.or_eq_true, beq_iff_eq] at w1 w2 ⊢
        intro hor
        rcases hor with hh | hh
        · exact w1 hh
        · exact w2 hh
  · intro h
    rw [inChat, List.any_eq_false] at h
    have h1 : List.find? (fun q : Nat × Nat => q.1 == u) chats = none := by
      rw [List.find?_eq_none]
      intro p hp
      have := h p hp
      simp only [involved, Bool.or_eq_true, beq_iff_eq] at this ⊢
      intro hh; exact this (Or.inl hh)
    have h2 : List.find? (fun q : Nat × Nat => q.2 == u) chats = none := by
      rw [List.find?_eq_none]
      intro p hp
      have := h p hp
      simp only [involved, Bool.or_eq_true, beq_iff_eq] at this ⊢
      intro hh; exact this (Or.inr hh)
    unfold get_partner
    rw [h1, h2]

lemma get_partner_some_mem {chats : List (Nat × Nat)} {u v : Nat}
    (h : get_partner chats u = some v) : (u, v) ∈ chats ∨ (v, u) ∈ chats := by
  unfold get_partner at h
  cases h1 : List.find? (fun q => q.1 == u) chats with
  | some q =>
    rw [h1] at h
    have hm := List.mem_of_find?_eq_some h1
    have hp := List.find?_some h1
    simp only [beq_iff_eq] at hp
    simp only [Option.some.injEq] at h
    left
    have : q = (u, v) := by
      rw [← hp, ← h]
    rw [← this]; exact hm
  | none =>
    rw [h1] at h
    cases h2 : List.find? (fun q => q.2 == u) chats with
    | some q =>
      rw [h2] at h
      have hm := List.mem_of_find?_eq_some h2
      have hp := List.find?_some h2
      simp only [beq_iff_eq] at hp
      simp only [Option.some.injEq] at h
      right
      have : q = (v, u) := by
        rw [← hp, ← h]
      rw [← this]; exact hm
    | none => rw [h2] at h; cases h

lemma chatCount_remove_partner {chats : List (Nat × Nat)} {u v : Nat}
    (hone : chatCount chats u ≤ 1) (h : get_partner chats u = some v) :
    chatCount (remove_chat_by_users chats u v) u = 0 := by
  rw [chatCount, List.countP_eq_zero]
  intro p hp
  rw [remove_chat_by_users, List.mem_filter] at hp
  intro hinv
  have hlen : (chats.filter (involved u)).length ≤ 1 := by
    rw [← List.countP_eq_length_filter]; exact hone
  have hmemf : p ∈ chats.filter (involved u) := List.mem_filter.mpr ⟨hp.1, hinv⟩
  rcases get_partner_some_mem h with hr | hr
  · have hrmemf : (u, v) ∈ chats.filter (involved u) :=
      List.mem_filter.mpr ⟨hr, by simp [involved]⟩
    have hpe := mem_eq_of_length_le_one hlen hmemf hrmemf
    rw [hpe] at hp
    simp at hp
  · have hrmemf : (v, u) ∈ chats.filter (involved u) :=
      List.mem_filter.mpr ⟨hr, by simp [involved]⟩
    have hpe := mem_eq_of_length_le_one hlen hmemf hrmemf
    rw [hpe] at hp
    simp at hp

lemma get_first_in_queue_some {q : List Nat} {e c : Nat} (he : e ≠ 0)
    (h : get_first_in_queue q (some e) = some c) : c ∈ q ∧ c ≠ e := by
  simp only [get_first_in_queue] at h
  rw [if_pos he] at h
  refine ⟨List.mem_of_find?_eq_some h, ?_⟩
  have := List.find?_some h
  simpa using this

lemma get_first_in_queue_none {q : List Nat} {e : Nat} (he : e ≠ 0)
    (h : get_first_in_queue q (some e) = none) : ∀ x ∈ q, x = e := by
  simp only [get_first_in_queue] at h
  rw [if_pos he] at h
  intro x hx
  have := List.find?_eq_none.mp h x hx
  simpa using this

lemma inv_of_fields {s t : State} (hq : t.queue = s.queue) (hc : t.chats = s.chats)
    (h : Inv s) : Inv t := by
  refine ⟨?_, ?_, ?_, ?_, ?_, ?_⟩ <;> simp only [hq, hc]
  exacts [h.qnodup, h.qlen, h.qnz, h.cnz, h.cone, h.disj]

lemma inv_of_fields2 {t s : State} (h : Inv s) (hq : t.queue = s.queue)
    (hc : t.chats = s.chats) : Inv t := inv_of_fields hq hc h

lemma inv_queue_filter {s : State} (h : Inv s) (f : Nat → Bool) :
    Inv { s with queue := s.queue.filter f } := by
  refine ⟨h.qnodup.filter f, ?_, ?_, h.cnz, h.cone, ?_⟩
  · exact le_trans (s.queue.length_filter_le f) h.qlen
  · intro u hu; exact h.qnz u (List.mem_of_mem_filter hu)
  · intro u hu; exact h.disj u (List.mem_of_mem_filter hu)

lemma inv_chats_filter {s : State} (h : Inv s) (f : Nat × Nat → Bool) :
    Inv { s with chats := s.chats.filter f } := by
  refine ⟨h.qnodup, h.qlen, h.qnz, ?_, ?_, ?_⟩
  · intro p hp; exact h.cnz p (List.mem_of_mem_filter hp)
  · intro u; exact le_trans (chatCount_le_chatCount_filter s.chats f u) (h.cone u)
  · intro u hu
    exact Nat.le_zero.mp
      (le_trans (chatCount_le_chatCount_filter s.chats f u) (le_of_eq (h.disj u hu)))

lemma inv_pair {t : State} {uid c : Nat} (ht : Inv t) (huid : uid ≠ 0)
    (hno : chatCount t.chats uid = 0)
    (hc : get_first_in_queue t.queue (some uid) = some c) :
    Inv { t with queue := remove_from_queue t.queue c,
                 chats := add_chat t.chats uid c } := by
  obtain ⟨hcq, hcu⟩ := get_first_in_queue_some huid hc
  have hqe : t.queue = [c] := eq_singleton_of_length_le_one ht.qlen hcq
  have hcz : c ≠ 0 := ht.qnz c hcq
  have hqempty : remove_from_queue t.queue c = [] := by
    rw [hqe]; simp [remove_from_queue]
  refine ⟨?_, ?_, ?_, ?_, ?_, ?_⟩
  · simp only [hqempty]; exact List.nodup_nil
  · simp only [hqempty]; simp
  · simp only [hqempty]; intro u hu; cases hu
  · intro p hp
    simp only [add_chat] at hp
    rcases List.mem_append.mp hp with hp | hp
    · exact ht.cnz p hp
    · rw [List.mem_singleton] at hp
      rw [hp]
      exact ⟨huid, hcz, fun hh => hcu hh.symm⟩
  · intro u
    show chatCount (add_chat t.chats uid c) u ≤ 1
    rw [add_chat, chatCount, List.countP_append, ← chatCount, ← chatCount]
    have h1 : chatCount [(uid, c)] u ≤ 1 := by
      rw [chatCount, List.countP_cons, List.countP_nil]
      by_cases hx : involved u (uid, c) = true
      · simp [hx]
      · simp [hx]
    by_cases hinv : involved u (uid, c) = true
    · have hcu0 : chatCount t.chats u = 0 := by
        rcases (involved_iff u (uid, c)).mp hinv with hh | hh
        · rw [hh]; exact hno
        · rw [hh]; exact ht.disj c hcq
      rw [hcu0]
      simpa using h1
    · have h0 : chatCount [(uid, c)] u = 0 := by
        rw [chatCount, List.countP_cons, List.countP_nil, if_neg hinv]
      rw [h0]
      simpa using ht.cone u
  · intro u hu
    simp only [hqempty] at hu
    cases hu

lemma inv_enqueue {t : State} {uid : Nat} (ht : Inv t) (huid : uid ≠ 0)
    (hno : chatCount t.chats uid = 0)
    (hall : ∀ x ∈ t.queue, x = uid) :
    Inv { t with queue := add_to_queue t.queue uid } := by
  by_cases hmem : uid ∈ t.queue
  · have hq : add_to_queue t.queue uid = t.queue := by rw [add_to_queue, if_pos hmem]
    exact inv_of_fields hq rfl ht
  · have hqnil : t.queue = [] := by
      cases hq : t.queue with
      | nil => rfl
      | cons x l =>
        exfalso
        have : x = uid := hall x (by rw [hq]; exact List.mem_cons_self x l)
        apply hmem
        rw [hq, this]
        exact List.mem_cons_self uid l
    have hq : add_to_queue t.queue uid = [uid] := by
      rw [add_to_queue, if_neg hmem, hqnil]
      rfl
    refine ⟨?_, ?_, ?_, ht.cnz, ht.cone, ?_⟩
    · simp only [hq]; exact List.nodup_singleton uid
    · simp only [hq]; simp
    · simp only [hq]
      intro u hu
      rw [List.mem_singleton] at hu
      rw [hu]; exact huid
    · intro u hu
      simp only [hq] at hu
      rw [List.mem_singleton] at hu
      rw [hu]; exact hno

lemma inv_cmd_start (s : State) (uid : Nat) (prof : Profile) (h : Inv s) :
    Inv (cmd_start s uid prof).1 := by
  unfold cmd_start
  dsimp only
  split
  · exact inv_of_fields2 h rfl rfl
  · exact inv_of_fields2 h rfl rfl

lemma inv_cmd_stop (s : State) (uid : Nat) (h : Inv s) : Inv (cmd_stop s uid).1 := by
  unfold cmd_stop
  split
  · split
    · exact inv_chats_filter h _
    · exact inv_queue_filter h _
  · exact inv_queue_filter h _

lemma inv_cmd_report (adminId : Nat) (s : State) (uid : Nat) (now : Int) (h : Inv s) :
    Inv (cmd_report adminId s uid now).1 := by
  unfold cmd_report
  split
  · dsimp only
    split
    · split
      · exact inv_of_fields2 h rfl rfl
      · exact inv_of_fields2 h rfl rfl
    · exact inv_of_fields2 h rfl rfl
  · exact inv_of_fields2 h rfl rfl

lemma inv_handle_text (s : State) (uid chatId msgId : Nat) (h : Inv s) :
    Inv (handle_text s uid chatId msgId).1 := by
  unfold handle_text
  split
  · exact inv_of_fields2 h rfl rfl
  · split
    · split
      · exact inv_of_fields2 h rfl rfl
      · exact inv_of_fields2 h rfl rfl
    · exact inv_of_fields2 h rfl rfl

lemma inv_cmd_stats (adminId : Nat) (s : State) (caller : Nat) (h : Inv s) :
    Inv (cmd_stats adminId s caller).1 := by
  unfold cmd_stats
  split
  · exact inv_of_fields2 h rfl rfl
  · exact inv_of_fields2 h rfl rfl

lemma inv_cmd_unblock (adminId : Nat) (s : State) (caller : Nat) (target : Option Nat)
    (h : Inv s) : Inv (cmd_unblock adminId s caller target).1 := by
  unfold cmd_unblock
  split
  · exact inv_of_fields2 h rfl rfl
  · split
    · exact inv_of_fields2 h rfl rfl
    · exact inv_of_fields2 h rfl rfl

lemma inv_cmd_block (adminId : Nat) (s : State) (caller : Nat) (target : Option Nat)
    (h : Inv s) : Inv (cmd_block adminId s caller target).1 := by
  unfold cmd_block
  split
  · exact inv_of_fields2 h rfl rfl
  · split
    · exact inv_of_fields2 h rfl rfl
    · rename_i t
      have h1 : Inv { s with blocks := block_user s.blocks t } :=
        inv_of_fields2 h rfl rfl
      dsimp only
      split
      · split
        · exact inv_queue_filter (inv_chats_filter h1 _) _
        · exact inv_queue_filter h1 _
      · exact inv_queue_filter h1 _

lemma inv_set_rul (s : State) (r : List ((Nat × String) × Int))
    (u : List (Nat × Profile)) (l : List (Nat × Nat × Int × Nat)) (h : Inv s) :
    Inv { s with rate := r, users := u, limits := l } := inv_of_fields2 h rfl rfl

lemma inv_next_teardown (s : State) (uid : Nat) (h : Inv s) :
    Inv (next_teardown s uid).1 ∧ chatCount (next_teardown s uid).1.chats uid = 0 ∧
      (next_teardown s uid).1.queue = s.queue := by
  unfold next_teardown
  split
  · rename_i p hgp
    split
    · refine ⟨inv_chats_filter h _, ?_, rfl⟩
      exact chatCount_remove_partner (h.cone uid) hgp
    · rename_i hp0
      exfalso
      rcases get_partner_some_mem hgp with hr | hr
      · exact hp0 (h.cnz _ hr).2.1
      · exact hp0 (h.cnz _ hr).1
  · rename_i hgp
    refine ⟨h, ?_, rfl⟩
    exact (inChat_false_iff _ _).mp ((get_partner_none_iff _ _).mp hgp)

lemma inv_next_match (s : State) (uid : Nat) (h : Inv s) (huid : uid ≠ 0)
    (hno : chatCount s.chats uid = 0) : Inv (next_match s uid).1 := by
  unfold next_match
  split
  · rename_i c hc
    split
    · exact inv_pair h huid hno hc
    · rename_i hc0
      exfalso
      obtain ⟨hm, -⟩ := get_first_in_queue_some huid hc
      exact hc0 (h.qnz c hm)
  · rename_i hc
    exact inv_enqueue h huid hno (get_first_in_queue_none huid hc)

lemma inv_cmd_next (s : State) (uid : Nat) (prof : Profile) (now : Int) (sub : Bool)
    (h : Inv s) (huid : uid ≠ 0) : Inv (cmd_next s uid prof now sub).1 := by
  unfold cmd_next
  dsimp only
  repeat' split
  all_goals
    first
      | exact inv_of_fields2 h rfl rfl
      | (obtain ⟨h3, hno, -⟩ := inv_next_teardown _ uid (inv_set_rul s _ _ _ h);
         exact inv_next_match _ uid h3 huid hno)

lemma inv_applyCmd (adminId : Nat) (s : State) (c : Cmd) (h : Inv s) (hwf : c.wf) :
    Inv (applyCmd adminId s c).1 := by
  cases c with
  | start uid prof => exact inv_cmd_start s uid prof h
  | next uid prof now sub => exact inv_cmd_next s uid prof now sub h hwf
  | stop uid => exact inv_cmd_stop s uid h
  | report uid now => exact inv_cmd_report adminId s uid now h
  | incomingText uid cId mId => exact inv_handle_text s uid cId mId h
  | adminStats caller => exact inv_cmd_stats adminId s caller h
  | adminBlock caller t => exact inv_cmd_block adminId s caller t h
  | adminUnblock caller t => exact inv_cmd_unblock adminId s caller t h

lemma inv_initState : Inv initState := by
  refine ⟨?_, ?_, ?_, ?_, ?_, ?_⟩ <;> simp [initState, chatCount]

lemma inv_reach {adminId : Nat} {s : State} (h : Reach adminId s) : Inv s := by
  induction h with
  | init => exact inv_initState
  | step c hr hwf ih => exact inv_applyCmd _ _ c ih hwf

lemma find?_append_none {α : Type} {p : α → Bool} {l1 : List α} (l2 : List α)
    (h : l1.find? p = none) : (l1 ++ l2).find? p = l2.find? p := by
  induction l1 with
  | nil => simp
  | cons a l ih =>
    by_cases hpa : p a = true
    · rw [List.find?_cons_of_pos _ hpa] at h
      cases h
    · rw [List.find?_cons_of_neg _ hpa] at h
      rw [List.cons_append, List.find?_cons_of_neg _ hpa]
      exact ih h

lemma find?_append_some {α : Type} {p : α → Bool} {l1 : List α} {a : α} (l2 : List α)
    (h : l1.find? p = some a) : (l1 ++ l2).find? p = some a := by
  induction l1 with
  | nil => cases h
  | cons b l ih =>
    by_cases hpb : p b = true
    · rw [List.find?_cons_of_pos _ hpb] at h
      rw [List.cons_append, List.find?_cons_of_pos _ hpb]
      exact h
    · rw [List.find?_cons_of_neg _ hpb] at h
      rw [List.cons_append, List.find?_cons_of_neg _ hpb]
      exact ih h

lemma find?_map_update_self (l : List (Nat × Nat × Int × Nat)) (uid : Nat)
    (v : Nat × Int × Nat) (hl : l.any (fun e => e.1 == uid) = true) :
    (l.map (fun e => if e.1 == uid then (uid, v) else e)).find? (fun e => e.1 == uid)
      = some (uid, v) := by
  induction l with
  | nil => cases hl
  | cons a l ih =>
    by_cases ha : a.1 = uid
    · have h1 : (if a.1 == uid then (uid, v) else a) = (uid, v) := by simp [ha]
      rw [List.map_cons, h1, List.find?_cons_of_pos]
      simp
    · have hne : (a.1 == uid) = false := by simp [ha]
      have h1 : (if a.1 == uid then (uid, v) else a) = a := by simp [hne]
      rw [List.map_cons, h1, List.find?_cons_of_neg _ (by simp [ha])]
      apply ih
      rw [List.any_cons] at hl
      simp only [hne, Bool.false_or] at hl
      exact hl

lemma find?_map_update_other {l : List (Nat × Nat × Int × Nat)} {uid w : Nat}
    (v : Nat × Int × Nat) (hw : w ≠ uid) :
    (l.map (fun e => if e.1 == uid then (uid, v) else e)).find? (fun e => e.1 == w)
      = l.find? (fun e => e.1 == w) := by
  induction l with
  | nil => rfl
  | cons a l ih =>
    by_cases ha : a.1 = uid
    · have h1 : (if a.1 == uid then (uid, v) else a) = (uid, v) := by simp [ha]
      rw [List.map_cons, h1, List.find?_cons_of_neg _ (by simp; exact fun hh => hw hh.symm),
        List.find?_cons_of_neg _ (by simp [ha]; exact fun hh => hw hh.symm)]
      exact ih
    · have h1 : (if a.1 == uid then (uid, v) else a) = a := by simp [ha]
      rw [List.map_cons, h1]
      by_cases haw : a.1 = w
      · rw [List.find?_cons_of_pos _ (by simp [haw]), List.find?_cons_of_pos _ (by simp [haw])]
      · rw [List.find?_cons_of_neg _ (by simp [haw]), List.find?_cons_of_neg _ (by simp [haw])]
        exact ih

lemma get_limit_info_update_self (l : List (Nat × Nat × Int × Nat)) (uid used : Nat)
    (reset : Int) (premium : Nat) :
    get_limit_info (update_limit l uid used reset premium) uid = (used, reset, premium) := by
  unfold update_limit get_limit_info
  by_cases hl : l.any (fun e => e.1 == uid) = true
  · rw [if_pos hl, find?_map_update_self l uid (used, reset, premium) hl]
  · rw [if_neg hl]
    have hnone : l.find? (fun e => e.1 == uid) = none := by
      rw [List.find?_eq_none]
      intro x hx hpx
      exact hl (List.any_eq_true.mpr ⟨x, hx, hpx⟩)
    rw [find?_append_none _ hnone, List.find?_cons_of_pos _ (by simp)]

lemma get_limit_info_update_other {uid w : Nat} (l : List (Nat × Nat × Int × Nat))
    (used : Nat) (reset : Int) (premium : Nat) (hw : w ≠ uid) :
    get_limit_info (update_limit l uid used reset premium) w = get_limit_info l w := by
  unfold update_limit get_limit_info
  by_cases hl : l.any (fun e => e.1 == uid) = true
  · rw [if_pos hl, find?_map_update_other (used, reset, premium) hw]
  · rw [if_neg hl]
    cases hf : l.find? (fun e => e.1 == w) with
    | some e => rw [find?_append_some _ hf]
    | none =>
      rw [find?_append_none _ hf, List.find?_cons_of_neg _ (by simp; exact fun hh => hw hh.symm),
        List.find?_nil]

lemma next_teardown_limits (s : State) (uid : Nat) :
    (next_teardown s uid).1.limits = s.limits := by
  unfold next_teardown
  repeat' split
  all_goals rfl

lemma next_teardown_queue (s : State) (uid : Nat) :
    (next_teardown s uid).1.queue = s.queue := by
  unfold next_teardown
  repeat' split
  all_goals rfl

lemma next_match_limits (s : State) (uid : Nat) :
    (next_match s uid).1.limits = s.limits := by
  unfold next_match
  repeat' split
  all_goals rfl

lemma limitReached_not_in_teardown (s : State) (uid w : Nat) :
    Eff.send w .limitReached ∉ (next_teardown s uid).2 := by
  unfold next_teardown
  repeat' split
  all_goals simp

lemma limitReached_not_in_match (s : State) (uid w : Nat) :
    Eff.send w .limitReached ∉ (next_match s uid).2 := by
  unfold next_match
  repeat' split
  all_goals simp

lemma not_in_queue_of_inChat {s : State} (h : Inv s) {u : Nat}
    (hin : inChat s.chats u = true) : u ∉ s.queue := by
  intro hq
  have h0 := (inChat_false_iff s.chats u).mpr (h.disj u hq)
  rw [h0] at hin
  cases hin

/-- C1: in every reachable state every user appears in at most one chats row
(Pairing) and a paired user is never simultaneously in the queue; in
particular, whenever a /next call by uid leaves a pairing (uid, cand) in the
resulting state, neither uid nor cand is in the resulting queue. Reachability
builds in the transport guarantee that Telegram sender ids are nonzero. -/
theorem c1_pairing_exclusive (adminId : Nat) (s : State) (h : Reach adminId s) :
    (∀ u : Nat, chatCount s.chats u ≤ 1 ∧ (inChat s.chats u = true → u ∉ s.queue)) ∧
    (∀ (uid : Nat) (prof : Profile) (now : Int) (sub : Bool) (cand : Nat),
      uid ≠ 0 →
      (uid, cand) ∈ (cmd_next s uid prof now sub).1.chats →
      uid ∉ (cmd_next s uid prof now sub).1.queue ∧
      cand ∉ (cmd_next s uid prof now sub).1.queue) := by
  have hInv := inv_reach h
  constructor
  · intro u
    exact ⟨hInv.cone u, fun hin => not_in_queue_of_inChat hInv hin⟩
  · intro uid prof now sub cand huid hmem
    have h2 : Reach adminId (cmd_next s uid prof now sub).1 :=
      Reach.step (Cmd.next uid prof now sub) h huid
    have hInv2 := inv_reach h2
    constructor
    · refine not_in_queue_of_inChat hInv2 ?_
      rw [inChat, List.any_eq_true]
      exact ⟨(uid, cand), hmem, by simp [involved]⟩
    · refine not_in_queue_of_inChat hInv2 ?_
      rw [inChat, List.any_eq_true]
      exact ⟨(uid, cand), hmem, by simp [involved]⟩

theorem c1_pairing_exclusive_witness :
    Reach 99 initState ∧
    ((∀ u : Nat, chatCount initState.chats u ≤ 1 ∧
        (inChat initState.chats u = true → u ∉ initState.queue)) ∧
     (∀ (uid : Nat) (prof : Profile) (now : Int) (sub : Bool) (cand : Nat),
       uid ≠ 0 →
       (uid, cand) ∈ (cmd_next initState uid prof now sub).1.chats →
       uid ∉ (cmd_next initState uid prof now sub).1.queue ∧
       cand ∉ (cmd_next initState uid prof now sub).1.queue)) :=
  ⟨Reach.init, c1_pairing_exclusive 99 initState Reach.init⟩

/-- C8: a /report by a user with no chats row (get_partner returns none)
leaves the whole state unchanged — in particular no report row is appended —
and its only effect is the not-in-chat reply to the caller; nothing is
forwarded to the admin. -/
theorem c8_report_no_partner (adminId : Nat) (s : State) (r : Nat) (now : Int)
    (h : get_partner s.chats r = none) :
    cmd_report adminId s r now = (s, [.send r .reportNotInChat]) := by
  unfold cmd_report
  rw [h]

theorem c8_report_no_partner_witness :
    get_partner initState.chats 4 = none ∧
    cmd_report 99 initState 4 0 = (initState, [.send 4 .reportNotInChat]) :=
  ⟨rfl, c8_report_no_partner 99 initState 4 0 rfl⟩

/-- C9: add_to_queue (INSERT OR IGNORE) on a user already in the queue returns
the queue unchanged, so no duplicate is created and the user's arrival-order
position is preserved. -/
theorem c9_enqueue_idempotent (q : List Nat) (u : Nat) (h : u ∈ q) :
    add_to_queue q u = q := by
  rw [add_to_queue, if_pos h]

theorem c9_enqueue_idempotent_witness :
    (3 ∈ [7, 3, 5]) ∧ add_to_queue [7, 3, 5] 3 = [7, 3, 5] :=
  ⟨by decide, c9_enqueue_idempotent [7, 3, 5] 3 (by decide)⟩

/-- C10: get_first_in_queue applies its exclusion only for a truthy (nonzero)
excluded id: with exclude = some 0 it returns the queue head even when that
head is the nominally excluded id 0, while for a nonzero excluded id the
returned candidate always differs from it. -/
theorem c10_exclude_zero_truthiness :
    (∀ q : List Nat, get_first_in_queue (0 :: q) (some 0) = some 0) ∧
    (∀ (q : List Nat) (e r : Nat), e ≠ 0 →
      get_first_in_queue q (some e) = some r → r ≠ e) := by
  constructor
  · intro q
    rfl
  · intro q e r he hr
    exact (get_first_in_queue_some he hr).2

theorem c10_exclude_zero_truthiness_witness :
    get_first_in_queue [0, 4] (some 0) = some 0 ∧
    ((5 : Nat) ≠ 0 ∧ get_first_in_queue [5, 4] (some 5) = some 4 ∧ (4 : Nat) ≠ 5) :=
  ⟨c10_exclude_zero_truthiness.1 [4], by decide, by decide,
   c10_exclude_zero_truthiness.2 [5, 4] 5 4 (by decide) (by decide)⟩

/-- C3: with a stored quota record (5, T, 0) and now ≤ T, a /next whose
subscription check fails is denied — queue, chats and the stored record are
unchanged — and the record (5, T, 0) is nevertheless explicitly written back
(the dbUpdateLimit effect) on this deny path. -/
theorem c3_quota_deny_persists (s : State) (u : Nat) (T now : Int) (prof : Profile)
    (hrec : get_limit_info s.limits u = (5, T, 0))
    (hnow : ¬ now > T)
    (hrl : (is_rate_limited s.rate u "next" 5 now).1 = false)
    (hnb : is_blocked s.blocks u = false) :
    get_limit_info (cmd_next s u prof now false).1.limits u = (5, T, 0) ∧
    (cmd_next s u prof now false).1.queue = s.queue ∧
    (cmd_next s u prof now false).1.chats = s.chats ∧
    (cmd_next s u prof now false).2 =
      [.send u .limitReached, .dbUpdateLimit u 5 T 0] := by
  have hrl' : ¬ ((is_rate_limited s.rate u "next" 5 now).1 = true) := by
    rw [hrl]; simp
  have hnb' : ¬ (is_blocked s.blocks u = true) := by
    rw [hnb]; simp
  unfold cmd_next
  dsimp only
  rw [if_neg hrl']
  try dsimp only
  rw [if_neg hnb', hrec]
  try dsimp only
  rw [if_neg hnow, if_neg hnow, if_pos (by decide)]
  exact ⟨get_limit_info_update_self s.limits u 5 T 0, rfl, rfl, rfl⟩

theorem c3_quota_deny_persists_witness :
    (get_limit_info ({ initState with limits := [(3, 5, 10, 0)] } : State).limits 3
        = (5, 10, 0) ∧
      ¬ (7 : Int) > 10 ∧
      (is_rate_limited ({ initState with limits := [(3, 5, 10, 0)] } : State).rate
        3 "next" 5 7).1 = false ∧
      is_blocked ({ initState with limits := [(3, 5, 10, 0)] } : State).blocks 3 = false) ∧
    (get_limit_info
        (cmd_next { initState with limits := [(3, 5, 10, 0)] } 3
          ⟨none, none, none⟩ 7 false).1.limits 3 = (5, 10, 0) ∧
      (cmd_next { initState with limits := [(3, 5, 10, 0)] } 3
          ⟨none, none, none⟩ 7 false).1.queue
        = ({ initState with limits := [(3, 5, 10, 0)] } : State).queue ∧
      (cmd_next { initState with limits := [(3, 5, 10, 0)] } 3
          ⟨none, none, none⟩ 7 false).1.chats
        = ({ initState with limits := [(3, 5, 10, 0)] } : State).chats ∧
      (cmd_next { initState with limits := [(3, 5, 10, 0)] } 3
          ⟨none, none, none⟩ 7 false).2 =
        [.send 3 .limitReached, .dbUpdateLimit 3 5 10 0]) :=
  ⟨⟨by decide, by decide, by decide, by decide⟩,
   c3_quota_deny_persists { initState with limits := [(3, 5, 10, 0)] } 3 10 7
     ⟨none, none, none⟩ (by decide) (by decide) (by decide) (by decide)⟩

/-- C4: with a stored quota record (5, T, 0) and now > T — or no stored record
(defaults (0, 0, 0)) and now > 0 — an allowed /next starts a fresh window: the
post-call stored record is usedCount = 1 (never 6) with resetTime = now + 3600,
regardless of the subscription-check result. -/
theorem c4_quota_rollover (s : State) (u : Nat) (T now : Int) (prof : Profile)
    (sub : Bool)
    (hrec : get_limit_info s.limits u = (5, T, 0) ∨ get_limit_info s.limits u = (0, 0, 0))
    (hnow : now > T) (hnow0 : now > 0)
    (hrl : (is_rate_limited s.rate u "next" 5 now).1 = false)
    (hnb : is_blocked s.blocks u = false) :
    get_limit_info (cmd_next s u prof now sub).1.limits u = (1, now + 3600, 0) := by
  have hrl' : ¬ ((is_rate_limited s.rate u "next" 5 now).1 = true) := by
    rw [hrl]; simp
  have hnb' : ¬ (is_blocked s.blocks u = true) := by
    rw [hnb]; simp
  unfold cmd_next
  dsimp only
  rw [if_neg hrl']
  try dsimp only
  rw [if_neg hnb']
  try dsimp only
  rcases hrec with hrec | hrec
  · rw [hrec]
    try dsimp only
    simp [next_match_limits, next_teardown_limits, hnow, LIMIT, RESET_SECONDS,
      get_limit_info_update_self]
  · rw [hrec]
    try dsimp only
    simp [next_match_limits, next_teardown_limits, hnow0, LIMIT, RESET_SECONDS,
      get_limit_info_update_self]

theorem c4_quota_rollover_witness :
    ((get_limit_info ({ initState with limits := [(3, 5, 10, 0)] } : State).limits 3
        = (5, 10, 0) ∨
      get_limit_info ({ initState with limits := [(3, 5, 10, 0)] } : State).limits 3
        = (0, 0, 0)) ∧
     (20 : Int) > 10 ∧ (20 : Int) > 0 ∧
     (is_rate_limited ({ initState with limits := [(3, 5, 10, 0)] } : State).rate
        3 "next" 5 20).1 = false ∧
     is_blocked ({ initState with limits := [(3, 5, 10, 0)] } : State).blocks 3 = false) ∧
    get_limit_info
      (cmd_next { initState with limits := [(3, 5, 10, 0)] } 3
        ⟨none, none, none⟩ 20 false).1.limits 3 = (1, 20 + 3600, 0) :=
  ⟨⟨Or.inl (by decide), by decide, by decide, by decide, by decide⟩,
   c4_quota_rollover { initState with limits := [(3, 5, 10, 0)] } 3 10 20
     ⟨none, none, none⟩ false (Or.inl (by decide)) (by decide) (by decide)
     (by decide) (by decide)⟩

lemma is_rate_limited_nil (uid : Nat) (action : String) (cooldown now : Int)
    (h : ¬ now < cooldown) :
    (is_rate_limited [] uid action cooldown now).1 = false := by
  unfold is_rate_limited
  simp only [List.find?_nil, Option.map_none', Option.getD_none]
  rw [if_neg (by omega)]

lemma get_first_in_queue_cons_of_ne {a d : Nat} (q : List Nat) (hd : d ≠ 0)
    (ha : a ≠ d) : get_first_in_queue (a :: q) (some d) = some a := by
  simp only [get_first_in_queue, if_pos hd]
  rw [List.find?_cons_of_pos _ (by simp [ha])]

/-- C2: matching is strict FIFO — dequeue-excluding returns none when every
entry is the requester, otherwise the oldest entry different from the
requester; and a /next by d against queue [a, b, c] (real, pairwise-relevant
user ids distinct from d) pairs d with a, the longest-waiting entry, leaving
queue [b, c]. -/
theorem c2_fifo_matching :
    (∀ (q : List Nat) (d : Nat), d ≠ 0 → (∀ x ∈ q, x = d) →
      get_first_in_queue q (some d) = none) ∧
    (∀ (q : List Nat) (a d : Nat), d ≠ 0 → a ≠ d →
      get_first_in_queue (a :: q) (some d) = some a) ∧
    (∀ (a b c d : Nat) (now : Int) (prof : Profile) (sub : Bool),
      d ≠ 0 → a ≠ 0 → a ≠ d → b ≠ d → c ≠ d → a ≠ b → a ≠ c →
      now ≥ 5 → now > 0 →
      (cmd_next { initState with queue := [a, b, c] } d prof now sub).1.queue = [b, c] ∧
      (cmd_next { initState with queue := [a, b, c] } d prof now sub).1.chats = [(d, a)]) := by
  refine ⟨?_, ?_, ?_⟩
  · intro q d hd hall
    simp only [get_first_in_queue, if_pos hd]
    rw [List.find?_eq_none]
    intro x hx
    simp [hall x hx]
  · intro q a d hd ha
    exact get_first_in_queue_cons_of_ne q hd ha
  · intro a b c d now prof sub hd ha0 had hbd hcd hab hac hnow5 hnow0
    have hrate : ({ initState with queue := [a, b, c] } : State).rate
        = ([] : List ((Nat × String) × Int)) := rfl
    have hrl' : ¬ ((is_rate_limited ({ initState with queue := [a, b, c] } : State).rate
        d "next" 5 now).1 = true) := by
      rw [hrate, is_rate_limited_nil d "next" 5 now (by omega)]
      simp
    have hnb' : ¬ (is_blocked ({ initState with queue := [a, b, c] } : State).blocks d
        = true) := by
      simp [is_blocked, initState]
    have hlim : get_limit_info ({ initState with queue := [a, b, c] } : State).limits d
        = (0, 0, 0) := rfl
    unfold cmd_next
    dsimp only
    rw [if_neg hrl']
    try dsimp only
    rw [if_neg hnb', hlim]
    try dsimp only
    rw [if_pos hnow0, if_pos hnow0, if_neg (by simp [LIMIT])]
    have htd : ∀ s2 : State, s2.chats = [] → next_teardown s2 d = (s2, []) := by
      intro s2 h2
      unfold next_teardown
      rw [h2]
      rfl
    rw [htd _ rfl]
    try dsimp only
    unfold next_match
    rw [get_first_in_queue_cons_of_ne [b, c] hd had]
    try dsimp only
    rw [if_pos ha0]
    refine ⟨?_, rfl⟩
    simp [remove_from_queue]
    exact ⟨fun h => hab h.symm, fun h => hac h.symm⟩

theorem c2_fifo_matching_witness :
    get_first_in_queue [4, 4] (some 4) = none ∧
    get_first_in_queue [1, 2, 3] (some 4) = some 1 ∧
    ((cmd_next { initState with queue := [1, 2, 3] } 4 ⟨none, none, none⟩ 10 false).1.queue
        = [2, 3] ∧
     (cmd_next { initState with queue := [1, 2, 3] } 4 ⟨none, none, none⟩ 10 false).1.chats
        = [(4, 1)]) :=
  ⟨c2_fifo_matching.1 [4, 4] 4 (by decide) (by decide),
   c2_fifo_matching.2.1 [2, 3] 1 4 (by decide) (by decide),
   c2_fifo_matching.2.2 1 2 3 4 10 ⟨none, none, none⟩ false (by decide) (by decide)
     (by decide) (by decide) (by decide) (by decide) (by decide) (by decide) (by decide)⟩

/-- Stored premium flag of the quota record (0 when absent). -/
def premiumOf (s : State) (u : Nat) : Nat := (get_limit_info s.limits u).2.2

/-- Stored used_count of the quota record (0 when absent). -/
def usedOf (s : State) (u : Nat) : Nat := (get_limit_info s.limits u).1

/-- Stored reset_time of the quota record (0 when absent). -/
def resetOf (s : State) (u : Nat) : Int := (get_limit_info s.limits u).2.1

lemma limits_cmd_start (s : State) (uid : Nat) (prof : Profile) :
    (cmd_start s uid prof).1.limits = s.limits := by
  unfold cmd_start
  dsimp only
  split
  all_goals rfl

lemma limits_cmd_stop (s : State) (uid : Nat) :
    (cmd_stop s uid).1.limits = s.limits := by
  unfold cmd_stop
  try dsimp only
  repeat' split
  all_goals rfl

lemma limits_cmd_report (adminId : Nat) (s : State) (uid : Nat) (now : Int) :
    (cmd_report adminId s uid now).1.limits = s.limits := by
  unfold cmd_report
  try dsimp only
  repeat' split
  all_goals rfl

lemma limits_handle_text (s : State) (uid chatId msgId : Nat) :
    (handle_text s uid chatId msgId).1.limits = s.limits := by
  unfold handle_text
  try dsimp only
  repeat' split
  all_goals rfl

lemma limits_cmd_stats (adminId : Nat) (s : State) (caller : Nat) :
    (cmd_stats adminId s caller).1.limits = s.limits := by
  unfold cmd_stats
  split
  all_goals rfl

lemma limits_cmd_block (adminId : Nat) (s : State) (caller : Nat) (target : Option Nat) :
    (cmd_block adminId s caller target).1.limits = s.limits := by
  unfold cmd_block
  try dsimp only
  repeat' split
  all_goals rfl

lemma limits_cmd_unblock (adminId : Nat) (s : State) (caller : Nat) (target : Option Nat) :
    (cmd_unblock adminId s caller target).1.limits = s.limits := by
  unfold cmd_unblock
  try dsimp only
  repeat' split
  all_goals rfl

lemma premiumOf_cmd_next (s : State) (v : Nat) (prof : Profile) (now : Int)
    (sub : Bool) (u : Nat) (hp : premiumOf s u ≠ 0) :
    premiumOf (cmd_next s v prof now sub).1 u ≠ 0 := by
  by_cases huv : u = v
  · subst huv
    have hbeq : ((get_limit_info s.limits u).2.2 == 0) = false := by
      simp only [premiumOf] at hp
      simp [hp]
    unfold cmd_next
    dsimp only
    simp only [hbeq, Bool.false_and, Bool.and_false]
    repeat' split
    all_goals first
      | exact hp
      | (unfold premiumOf
         rw [next_match_limits, next_teardown_limits]
         try dsimp only
         rw [get_limit_info_update_self]
         try dsimp only
         exact hp)
      | simp_all
  · unfold cmd_next
    dsimp only
    repeat' split
    all_goals first
      | exact hp
      | (unfold premiumOf
         try rw [next_match_limits, next_teardown_limits]
         try dsimp only
         rw [get_limit_info_update_other _ _ _ _ huv]
         exact hp)

lemma cmd_next_premium_no_deny (s : State) (u : Nat) (prof : Profile) (now : Int)
    (sub : Bool) (hp : premiumOf s u ≠ 0) :
    Eff.send u .limitReached ∉ (cmd_next s u prof now sub).2 := by
  have hbeq : ((get_limit_info s.limits u).2.2 == 0) = false := by
    simp only [premiumOf] at hp
    simp [hp]
  unfold cmd_next
  dsimp only
  simp only [hbeq, Bool.false_and, Bool.and_false]
  repeat' split
  all_goals first
    | (intro hmem
       rcases List.mem_append.mp hmem with hmem | hmem
       · rcases List.mem_append.mp hmem with hmem | hmem
         · simp at hmem
         · exact limitReached_not_in_teardown _ _ _ hmem
       · exact limitReached_not_in_match _ _ _ hmem)
    | simp_all

lemma cmd_next_premium_used_le (s : State) (u : Nat) (prof : Profile) (now : Int)
    (sub : Bool) (hp : premiumOf s u ≠ 0) :
    usedOf (cmd_next s u prof now sub).1 u ≤ usedOf s u := by
  have hbeq : ((get_limit_info s.limits u).2.2 == 0) = false := by
    simp only [premiumOf] at hp
    simp [hp]
  unfold cmd_next
  dsimp only
  simp only [hbeq, Bool.false_and, Bool.and_false]
  repeat' split
  all_goals first
    | exact le_refl _
    | (unfold usedOf
       rw [next_match_limits, next_teardown_limits]
       try dsimp only
       try rw [get_limit_info_update_self]
       try dsimp only
       try exact Nat.zero_le _
       try exact le_refl _
       done)
    | simp_all

lemma cmd_next_premium_eq (s : State) (u : Nat) (prof : Profile) (now : Int)
    (sub : Bool) (hp : premiumOf s u ≠ 0) :
    premiumOf (cmd_next s u prof now sub).1 u = premiumOf s u := by
  have hbeq : ((get_limit_info s.limits u).2.2 == 0) = false := by
    simp only [premiumOf] at hp
    simp [hp]
  unfold cmd_next
  dsimp only
  simp only [hbeq, Bool.false_and, Bool.and_false]
  repeat' split
  all_goals first
    | rfl
    | (unfold premiumOf
       rw [next_match_limits, next_teardown_limits]
       try dsimp only
       try rw [get_limit_info_update_self]
       try dsimp only
       try rfl
       done)
    | simp_all

lemma cmd_next_subscribe_grants (s : State) (u : Nat) (prof : Profile) (now : Int)
    (hp : premiumOf s u = 0) (hused : 5 ≤ usedOf s u) (hnow : ¬ now > resetOf s u)
    (hrl : (is_rate_limited s.rate u "next" 5 now).1 = false)
    (hnb : is_blocked s.blocks u = false) :
    premiumOf (cmd_next s u prof now true).1 u = 1 ∧
    usedOf (cmd_next s u prof now true).1 u = usedOf s u ∧
    Eff.send u .limitReached ∉ (cmd_next s u prof now true).2 := by
  have hrl' : ¬ ((is_rate_limited s.rate u "next" 5 now).1 = true) := by
    rw [hrl]; simp
  have hnb' : ¬ (is_blocked s.blocks u = true) := by
    rw [hnb]; simp
  have hbeq : ((get_limit_info s.limits u).2.2 == 0) = true := by
    simp only [premiumOf] at hp
    simp [hp]
  have hdec : decide ((get_limit_info s.limits u).1 ≥ LIMIT) = true := by
    simp only [usedOf] at hused
    simp [LIMIT]
    exact hused
  unfold cmd_next
  dsimp only
  rw [if_neg hrl']
  try dsimp only
  rw [if_neg hnb']
  try dsimp only
  unfold resetOf at hnow
  rw [if_neg hnow, if_neg hnow]
  simp only [hbeq, hdec, Bool.true_and, Bool.and_true, Bool.not_true, Bool.and_false]
  rw [if_neg (by simp)]
  rw [if_pos trivial, if_pos trivial]
  rw [if_neg (by decide)]
  refine ⟨?_, ?_, ?_⟩
  · unfold premiumOf
    rw [next_match_limits, next_teardown_limits]
    try dsimp only
    rw [get_limit_info_update_self]
  · unfold usedOf
    rw [next_match_limits, next_teardown_limits]
    try dsimp only
    rw [get_limit_info_update_self]
  · intro hmem
    rcases List.mem_append.mp hmem with hmem | hmem
    · rcases List.mem_append.mp hmem with hmem | hmem
      · simp at hmem
      · exact limitReached_not_in_teardown _ _ _ hmem
    · exact limitReached_not_in_match _ _ _ hmem

lemma premiumOf_applyCmd (adminId : Nat) (s : State) (c : Cmd) (u : Nat)
    (hp : premiumOf s u ≠ 0) : premiumOf (applyCmd adminId s c).1 u ≠ 0 := by
  cases c with
  | start uid prof =>
    show premiumOf (cmd_start s uid prof).1 u ≠ 0
    unfold premiumOf
    rw [limits_cmd_start]
    exact hp
  | next uid prof now sub =>
    exact premiumOf_cmd_next s uid prof now sub u hp
  | stop uid =>
    show premiumOf (cmd_stop s uid).1 u ≠ 0
    unfold premiumOf
    rw [limits_cmd_stop]
    exact hp
  | report uid now =>
    show premiumOf (cmd_report adminId s uid now).1 u ≠ 0
    unfold premiumOf
    rw [limits_cmd_report]
    exact hp
  | incomingText uid cId mId =>
    show premiumOf (handle_text s uid cId mId).1 u ≠ 0
    unfold premiumOf
    rw [limits_handle_text]
    exact hp
  | adminStats caller =>
    show premiumOf (cmd_stats adminId s caller).1 u ≠ 0
    unfold premiumOf
    rw [limits_cmd_stats]
    exact hp
  | adminBlock caller t =>
    show premiumOf (cmd_block adminId s caller t).1 u ≠ 0
    unfold premiumOf
    rw [limits_cmd_block]
    exact hp
  | adminUnblock caller t =>
    show premiumOf (cmd_unblock adminId s caller t).1 u ≠ 0
    unfold premiumOf
    rw [limits_cmd_unblock]
    exact hp

/-- C5: premium override — a user whose stored premium flag is set is never
sent the quota-denial message, never has used_count incremented (it can only
stay or roll to 0), and keeps the same premium flag; a successful subscription
check on an over-quota non-premium user sets premium to 1 without incrementing
used_count and without a quota denial; and the premium flag, once nonzero, is
preserved by every command (one-way flag). -/
theorem c5_premium_override :
    (∀ (s : State) (u : Nat) (prof : Profile) (now : Int) (sub : Bool),
      premiumOf s u ≠ 0 →
      Eff.send u .limitReached ∉ (cmd_next s u prof now sub).2 ∧
      usedOf (cmd_next s u prof now sub).1 u ≤ usedOf s u ∧
      premiumOf (cmd_next s u prof now sub).1 u = premiumOf s u) ∧
    (∀ (s : State) (u : Nat) (prof : Profile) (now : Int),
      premiumOf s u = 0 → 5 ≤ usedOf s u → ¬ now > resetOf s u →
      (is_rate_limited s.rate u "next" 5 now).1 = false →
      is_blocked s.blocks u = false →
      premiumOf (cmd_next s u prof now true).1 u = 1 ∧
      usedOf (cmd_next s u prof now true).1 u = usedOf s u ∧
      Eff.send u .limitReached ∉ (cmd_next s u prof now true).2) ∧
    (∀ (adminId : Nat) (s : State) (c : Cmd) (u : Nat),
      premiumOf s u ≠ 0 → premiumOf (applyCmd adminId s c).1 u ≠ 0) := by
  refine ⟨?_, ?_, ?_⟩
  · intro s u prof now sub hp
    exact ⟨cmd_next_premium_no_deny s u prof now sub hp,
           cmd_next_premium_used_le s u prof now sub hp,
           cmd_next_premium_eq s u prof now sub hp⟩
  · intro s u prof now hp hused hnow hrl hnb
    exact cmd_next_subscribe_grants s u prof now hp hused hnow hrl hnb
  · intro adminId s c u hp
    exact premiumOf_applyCmd adminId s c u hp

theorem c5_premium_override_witness :
    (premiumOf { initState with limits := [(3, 2, 50, 1)] } 3 ≠ 0 ∧
     (Eff.send 3 .limitReached ∉
        (cmd_next { initState with limits := [(3, 2, 50, 1)] } 3
          ⟨none, none, none⟩ 10 false).2 ∧
      usedOf (cmd_next { initState with limits := [(3, 2, 50, 1)] } 3
          ⟨none, none, none⟩ 10 false).1 3
        ≤ usedOf { initState with limits := [(3, 2, 50, 1)] } 3 ∧
      premiumOf (cmd_next { initState with limits := [(3, 2, 50, 1)] } 3
          ⟨none, none, none⟩ 10 false).1 3
        = premiumOf { initState with limits := [(3, 2, 50, 1)] } 3)) ∧
    premiumOf (cmd_next { initState with limits := [(3, 5, 50, 0)] } 3
        ⟨none, none, none⟩ 10 true).1 3 = 1 ∧
    premiumOf (applyCmd 99 { initState with limits := [(3, 2, 50, 1)] }
        (.stop 3)).1 3 ≠ 0 :=
  ⟨⟨by decide,
    c5_premium_override.1 { initState with limits := [(3, 2, 50, 1)] } 3
      ⟨none, none, none⟩ 10 false (by decide)⟩,
   (c5_premium_override.2.1 { initState with limits := [(3, 5, 50, 0)] } 3
      ⟨none, none, none⟩ 10 (by decide) (by decide) (by decide) (by decide)
      (by decide)).1,
   c5_premium_override.2.2 99 { initState with limits := [(3, 2, 50, 1)] }
     (.stop 3) 3 (by decide)⟩

/-- C7: after seven pushes for sender x the per-sender window holds exactly
the last five references oldest-first; a report whose reported partner is x
forwards exactly that window, in order, between the header and footer admin
messages; and a report when x's window is empty sends the no-messages notice
instead of forwarding anything. -/
theorem c7_recent_window :
    (∀ (x : Nat) (m1 m2 m3 m4 m5 m6 m7 : Nat × Nat),
      last_messages_get
        (List.foldl (fun lm m => push_last_message lm x m.1 m.2 5) []
          [m1, m2, m3, m4, m5, m6, m7]) x = [m3, m4, m5, m6, m7]) ∧
    (∀ (adminId : Nat) (s : State) (r x : Nat) (now : Int),
      get_partner s.chats r = some x → x ≠ 0 →
      last_messages_get s.lastMessages x ≠ [] →
      (cmd_report adminId s r now).2 =
        [.send r .reportSentThanks, .send adminId .reportHeader]
        ++ (last_messages_get s.lastMessages x).map (fun m => Eff.copyMsg adminId m.1 m.2)
        ++ [.send adminId .reportFooter]) ∧
    (∀ (adminId : Nat) (s : State) (r x : Nat) (now : Int),
      get_partner s.chats r = some x → x ≠ 0 →
      last_messages_get s.lastMessages x = [] →
      (cmd_report adminId s r now).2 =
        [.send r .reportSentThanks, .send adminId .reportNoMessages]) := by
  refine ⟨?_, ?_, ?_⟩
  · intro x m1 m2 m3 m4 m5 m6 m7
    simp [push_last_message, last_messages_get, keep_last]
  · intro adminId s r x now hgp hx hne
    unfold cmd_report
    rw [hgp]
    try dsimp only
    rw [if_pos hx]
    try dsimp only
    rw [if_neg (by simpa using hne)]
  · intro adminId s r x now hgp hx hempty
    unfold cmd_report
    rw [hgp]
    try dsimp only
    rw [if_pos hx]
    try dsimp only
    rw [if_pos (by simpa using hempty)]

theorem c7_recent_window_witness :
    last_messages_get
      (List.foldl (fun lm m => push_last_message lm 9 m.1 m.2 5) []
        [(1, 1), (1, 2), (1, 3), (1, 4), (1, 5), (1, 6), (1, 7)]) 9
      = [(1, 3), (1, 4), (1, 5), (1, 6), (1, 7)] ∧
    ((cmd_report 99
        { initState with
          chats := [(4, 9)],
          lastMessages := [(9, [(1, 3), (1, 4), (1, 5), (1, 6), (1, 7)])] } 4 0).2 =
      [.send 4 .reportSentThanks, .send 99 .reportHeader,
       .copyMsg 99 1 3, .copyMsg 99 1 4, .copyMsg 99 1 5, .copyMsg 99 1 6,
       .copyMsg 99 1 7, .send 99 .reportFooter]) ∧
    ((cmd_report 99 { initState with chats := [(4, 9)] } 4 0).2 =
      [.send 4 .reportSentThanks, .send 99 .reportNoMessages]) := by
  refine ⟨c7_recent_window.1 9 (1, 1) (1, 2) (1, 3) (1, 4) (1, 5) (1, 6) (1, 7),
    ?_, ?_⟩
  · rw [c7_recent_window.2.1 99
      { initState with
        chats := [(4, 9)],
        lastMessages := [(9, [(1, 3), (1, 4), (1, 5), (1, 6), (1, 7)])] } 4 9 0
      (by decide) (by decide) (by decide)]
    decide
  · rw [c7_recent_window.2.2 99 { initState with chats := [(4, 9)] } 4 9 0
      (by decide) (by decide) (by decide)]

/-- C6 counterexample: user 7 is blocked and waiting in the queue, yet its
/stop call is not guarded by the block set — it removes 7 from the queue (a
state change) and replies with the ordinary not-in-chat message, never telling
7 that it may not proceed. This falsifies the claim that every user-facing
entry point consults the block set and performs no other state change. -/
theorem c6_blocked_guard_counterexample :
    is_blocked ({ initState with queue := [7], blocks := [7] } : State).blocks 7 = true ∧
    (cmd_stop { initState with queue := [7], blocks := [7] } 7).1.queue = [] ∧
    (cmd_stop { initState with queue := [7], blocks := [7] } 7).2
      = [.send 7 .stopNotInChat] := by
  decide

lemma cmd_stop_blocks_independent (s : State) (b : List Nat) (u : Nat) :
    (cmd_stop { s with blocks := b } u).1 = { (cmd_stop s u).1 with blocks := b } ∧
    (cmd_stop { s with blocks := b } u).2 = (cmd_stop s u).2 := by
  unfold cmd_stop
  dsimp only
  repeat' split
  all_goals exact ⟨rfl, rfl⟩

lemma cmd_report_blocks_independent (adminId : Nat) (s : State) (b : List Nat)
    (r : Nat) (now : Int) :
    (cmd_report adminId { s with blocks := b } r now).1
      = { (cmd_report adminId s r now).1 with blocks := b } ∧
    (cmd_report adminId { s with blocks := b } r now).2
      = (cmd_report adminId s r now).2 := by
  unfold cmd_report
  dsimp only
  repeat' split
  all_goals exact ⟨rfl, rfl⟩

/-- C6 amended: the block set is consulted at the start of /start, /next and
text relay only. For a blocked user: /start changes nothing except the users
upsert (performed before the guard) and replies with the blocked notice; /next,
when not rate-limited, changes nothing except the users upsert and rate-limit
stamp (both before the guard) and replies with the blocked notice; text relay
is a silent no-op; /stop and /report perform no block check at all and behave
exactly as for unblocked users — their result state (apart from the untouched
blocks field itself) and their replies are the same for every value of the
blocks table, and e.g. a blocked user's /stop with no partner still removes it
from the queue. -/
theorem c6_blocked_guard_amended (s : State) (u : Nat)
    (hb : is_blocked s.blocks u = true) :
    (∀ prof : Profile,
      (cmd_start s u prof).1 = { s with users := add_user s.users u prof } ∧
      (cmd_start s u prof).2 = [.send u .blockedStart]) ∧
    (∀ (prof : Profile) (now : Int) (sub : Bool),
      (is_rate_limited s.rate u "next" 5 now).1 = false →
      (cmd_next s u prof now sub).1 =
        { s with
          rate := (is_rate_limited s.rate u "next" 5 now).2,
          users := add_user s.users u prof } ∧
      (cmd_next s u prof now sub).2 = [.send u .blockedNext]) ∧
    (∀ chatId msgId : Nat, handle_text s u chatId msgId = (s, [])) ∧
    (∀ b : List Nat,
      (cmd_stop { s with blocks := b } u).1 = { (cmd_stop s u).1 with blocks := b } ∧
      (cmd_stop { s with blocks := b } u).2 = (cmd_stop s u).2) ∧
    (get_partner s.chats u = none →
      (cmd_stop s u).1.queue = remove_from_queue s.queue u ∧
      (cmd_stop s u).2 = [.send u .stopNotInChat]) ∧
    (∀ (adminId : Nat) (now : Int) (b : List Nat),
      (cmd_report adminId { s with blocks := b } u now).1
        = { (cmd_report adminId s u now).1 with blocks := b } ∧
      (cmd_report adminId { s with blocks := b } u now).2
        = (cmd_report adminId s u now).2) := by
  refine ⟨?_, ?_, ?_, ?_, ?_, ?_⟩
  · intro prof
    unfold cmd_start
    dsimp only
    rw [if_pos hb]
    exact ⟨rfl, rfl⟩
  · intro prof now sub hrl
    have hrl' : ¬ ((is_rate_limited s.rate u "next" 5 now).1 = true) := by
      rw [hrl]; simp
    unfold cmd_next
    dsimp only
    rw [if_neg hrl']
    try dsimp only
    rw [if_pos hb]
    exact ⟨rfl, rfl⟩
  · intro chatId msgId
    unfold handle_text
    rw [if_pos hb]
  · intro b
    exact cmd_stop_blocks_independent s b u
  · intro hgp
    unfold cmd_stop
    rw [hgp]
    exact ⟨rfl, rfl⟩
  · intro adminId now b
    exact cmd_report_blocks_independent adminId s b u now

theorem c6_blocked_guard_amended_witness :
    is_blocked ({ initState with blocks := [7] } : State).blocks 7 = true ∧
    ((∀ prof : Profile,
      (cmd_start { initState with blocks := [7] } 7 prof).1 =
        { { initState with blocks := [7] } with
          users := add_user ({ initState with blocks := [7] } : State).users 7 prof } ∧
      (cmd_start { initState with blocks := [7] } 7 prof).2 = [.send 7 .blockedStart]) ∧
    (∀ (prof : Profile) (now : Int) (sub : Bool),
      (is_rate_limited ({ initState with blocks := [7] } : State).rate 7 "next" 5 now).1 = false →
      (cmd_next { initState with blocks := [7] } 7 prof now sub).1 =
        { { initState with blocks := [7] } with
          rate := (is_rate_limited ({ initState with blocks := [7] } : State).rate 7 "next" 5 now).2,
          users := add_user ({ initState with blocks := [7] } : State).users 7 prof } ∧
      (cmd_next { initState with blocks := [7] } 7 prof now sub).2 = [.send 7 .blockedNext]) ∧
    (∀ chatId msgId : Nat,
      handle_text { initState with blocks := [7] } 7 chatId msgId =
        ({ initState with blocks := [7] }, [])) ∧
    (∀ b : List Nat,
      (cmd_stop { { initState with blocks := [7] } with blocks := b } 7).1 =
        { (cmd_stop { initState with blocks := [7] } 7).1 with blocks := b } ∧
      (cmd_stop { { initState with blocks := [7] } with blocks := b } 7).2 =
        (cmd_stop { initState with blocks := [7] } 7).2) ∧
    (get_partner ({ initState with blocks := [7] } : State).chats 7 = none →
      (cmd_stop { initState with blocks := [7] } 7).1.queue =
        remove_from_queue ({ initState with blocks := [7] } : State).queue 7 ∧
      (cmd_stop { initState with blocks := [7] } 7).2 = [.send 7 .stopNotInChat]) ∧
    (∀ (adminId : Nat) (now : Int) (b : List Nat),
      (cmd_report adminId { { initState with blocks := [7] } with blocks := b } 7 now).1
        = { (cmd_report adminId { initState with blocks := [7] } 7 now).1 with blocks := b } ∧
      (cmd_report adminId { { initState with blocks := [7] } with blocks := b } 7 now).2
        = (cmd_report adminId { initState with blocks := [7] } 7 now).2)) :=
  ⟨by decide, c6_blocked_guard_amended { initState with blocks := [7] } 7 (by decide)⟩

end AnChat
